import Mathlib

/-!
Verification of the MCP client/server repository against its specification.

The core under scrutiny is `MCPClient.process_query` in
`src/Client-Server/mcp-client/client.py` (the orchestration loop), together
with `MCPClient.connect_to_server` (script-type dispatch) and the validation
gate of the `get_forecast` tool in `src/Client-Server/mcp-servers/weather.py`.

The embedding is shallow: the two collaborator calls of the loop — the
inference endpoint (`self.anthropic.messages.create`) and the tool endpoint
(`self.session.call_tool`) — are scripted.  The inference endpoint is a list
of canned completion results consumed in order (an exhausted script models a
fatal inference failure, which in the source is an exception escaping
`process_query`); the tool endpoint is a function from tool name and
arguments to the scripted outcome.  Tool arguments are carried as their
printed form, an opaque string, since the loop only threads them through.
The effects at the two boundaries are recorded in the run result: the list
of tool invocations actually performed and the number of inference calls
issued.
-/

namespace MCP

/-- Content block of a message, mirroring the tagged blocks the client code
branches on (`content.type == 'text'` / `'tool_use'`) and the
`tool_result` dictionaries it builds.  The source builds its tool result
dictionary without any `is_error` key, which the wire format defaults to
false; the `isError` field records exactly that flag. -/
inductive ContentBlock where
  | text (s : String)
  | toolUse (id name args : String)
  | toolResult (toolUseId content : String) (isError : Bool)
deriving DecidableEq, Repr

/-- Message content in the transcript: the source sometimes appends a raw
string (the user query at line 54, the closing assistant message at line
135) and sometimes a list of blocks (lines 109 and 115). -/
inductive MessageContent where
  | str (s : String)
  | blocks (bs : List ContentBlock)
deriving DecidableEq, Repr

/-- One entry of the `messages` list built by `process_query`. -/
structure Message where
  role : String
  content : MessageContent
deriving DecidableEq, Repr

/-- A completion result returned by the inference endpoint: the loop only
reads its `content` list. -/
structure CompletionResult where
  content : List ContentBlock
deriving DecidableEq, Repr

/-- Outcome of one `session.call_tool` invocation as seen by the except
handler of the client: either a normal return carrying the result content
(the falsy check at line 101 collapses an empty payload to the empty
string, which the string model already is), or a raised exception carrying
its message `str(e)`. -/
inductive ToolOutcome where
  | ok (content : String)
  | exn (message : String)
deriving DecidableEq, Repr

/-- Observable result of one `process_query` run: the returned answer
string, the final `messages` transcript, the tool invocations performed at
the session boundary in order, and how many inference calls were issued. -/
structure RunResult where
  answer : String
  messages : List Message
  calls : List (String × String)
  inferenceCalls : Nat
deriving DecidableEq, Repr

/-- The `for content in response.content` loop of `process_query`
(lines 86..131): text block values are accumulated into `final_text` until
the first `tool_use` block, at which point the loop body runs the tool
branch and breaks, discarding the remaining blocks.  Returns the
accumulated texts together with the first tool use, if any. -/
def scanContent : List ContentBlock → List String × Option (String × String × String)
  | [] => ([], none)
  | ContentBlock.text s :: rest =>
      let r := scanContent rest
      (s :: r.1, r.2)
  | ContentBlock.toolUse id name args :: _ => ([], some (id, name, args))
  | ContentBlock.toolResult _ _ _ :: rest => scanContent rest

/-- The closing assistant message content (line 137 of the source):
`response.content[0].text` when the first block exists and has a `text`
attribute, the empty string otherwise. -/
def firstBlockText : List ContentBlock → String
  | ContentBlock.text s :: _ => s
  | _ => ""

/-- All text block values of a content list, in order.  Used to phrase the
answer of a completion that requests no tool. -/
def textBlocks : List ContentBlock → List String
  | [] => []
  | ContentBlock.text s :: rest => s :: textBlocks rest
  | _ :: rest => textBlocks rest

/-- True when the block is a `tool_use` block. -/
def ContentBlock.isToolUse : ContentBlock → Bool
  | ContentBlock.toolUse _ _ _ => true
  | _ => false

/-- Shallow embedding of `MCPClient.process_query` (client.py lines
52..142) over the scripted collaborators.  Control flow of the source: the
`while True` loop body runs exactly once, because the `break` at line 140
is unconditional; inside it, the `for` loop over `response.content`
appends text block values to `final_text` and, on the first `tool_use`
block, logs the call, invokes the tool (converting a raised exception into
the string `"Error calling tool NAME: MSG"`, also appended to
`final_text`), appends the assistant message holding the full completion
content and a user message holding the single `tool_result` block (built
without any error flag), issues the second inference call, and breaks.
After the `for` loop the closing assistant message is appended with the
first text of the now-current response, and the joined `final_text` is
returned.  Consequently at most one tool call and at most two inference
calls ever happen, and the text of the second completion never reaches
`final_text`. -/
def processQuery (query : String) (completions : List CompletionResult)
    (callTool : String → String → ToolOutcome) : Except String RunResult :=
  match completions with
  | [] => Except.error "inference request failed"
  | r0 :: rest =>
    let scanned := scanContent r0.content
    match scanned.2 with
    | none =>
        Except.ok
          { answer := String.intercalate "\n" scanned.1
            messages := [⟨"user", MessageContent.str query⟩,
                         ⟨"assistant", MessageContent.str (firstBlockText r0.content)⟩]
            calls := []
            inferenceCalls := 1 }
    | some (id, name, args) =>
        let logLine := "[Calling tool " ++ name ++ " with args " ++ args ++ "]"
        let outcome := callTool name args
        let tool_result :=
          match outcome with
          | ToolOutcome.ok c => c
          | ToolOutcome.exn m => "Error calling tool " ++ name ++ ": " ++ m
        let errorTexts :=
          match outcome with
          | ToolOutcome.ok _ => ([] : List String)
          | ToolOutcome.exn _ => [tool_result]
        match rest with
        | [] => Except.error "inference request failed"
        | r1 :: _ =>
          Except.ok
            { answer := String.intercalate "\n" (scanned.1 ++ [logLine] ++ errorTexts)
              messages := [⟨"user", MessageContent.str query⟩,
                           ⟨"assistant", MessageContent.blocks r0.content⟩,
                           ⟨"user", MessageContent.blocks
                              [ContentBlock.toolResult id tool_result false]⟩,
                           ⟨"assistant", MessageContent.str (firstBlockText r1.content)⟩]
              calls := [(name, args)]
              inferenceCalls := 2 }

/-- Blocks of a transcript message; a raw string content holds none. -/
def blocksOf (m : Message) : List ContentBlock :=
  match m.content with
  | MessageContent.str _ => []
  | MessageContent.blocks bs => bs

/-- All `tool_use` ids occurring in a transcript, in order. -/
def toolUseIds (msgs : List Message) : List String :=
  (msgs.map (fun m => (blocksOf m).filterMap
    (fun b => match b with
      | ContentBlock.toolUse id _ _ => some id
      | _ => none))).flatten

/-- All `tool_result` ids occurring in a transcript, in order. -/
def toolResultIds (msgs : List Message) : List String :=
  (msgs.map (fun m => (blocksOf m).filterMap
    (fun b => match b with
      | ContentBlock.toolResult id _ _ => some id
      | _ => none))).flatten

/-- True when some `tool_result` block of the transcript carries a true
error flag. -/
def anyErrorFlaggedResult (msgs : List Message) : Bool :=
  msgs.any (fun m => (blocksOf m).any
    (fun b => match b with
      | ContentBlock.toolResult _ _ e => e
      | _ => false))

/-- Python `str.endswith`, a suffix test on the character sequence
(client.py lines 29..30). -/
def pyEndsWith (s suf : String) : Bool :=
  suf.data.isSuffixOf s.data

/-- Shallow embedding of `MCPClient.connect_to_server` (client.py lines
23..45) up to the command selection: a path ending in neither `.py` nor
`.js` raises `ValueError` before any `StdioServerParameters` is built or
any subprocess spawned; otherwise the selected command string is
`"python"` for `is_python` and `"node"` otherwise. -/
def connect_to_server (server_script_path : String) : Except String String :=
  let is_python := pyEndsWith server_script_path ".py"
  let is_js := pyEndsWith server_script_path ".js"
  if !(is_python || is_js) then
    Except.error "Server script must be a .py or .js file"
  else
    Except.ok (if is_python then "python" else "node")

/-- Base URL constant of weather.py. -/
def NWS_API_BASE : String := "https://api.weather.gov"

/-- Decimal digit characters of a natural number, most significant first,
by repeated division; the fuel argument strictly exceeds the number so the
recursion always completes. -/
def natDigitsAux : Nat → Nat → List Char
  | 0, _ => []
  | fuel + 1, n =>
      if n < 10 then [Nat.digitChar n]
      else natDigitsAux fuel (n / 10) ++ [Nat.digitChar (n % 10)]

/-- Decimal rendering of a natural number. -/
def natToDecimal (n : Nat) : String :=
  ⟨natDigitsAux (n + 1) n⟩

/-- Nearest integer to `x * 10000`, computed as the floor of
`x * 10000 + 1 / 2` directly on the numerator and denominator (integer
division on a positive denominator is floor division).  The lemma
`round4_eq_round` below identifies it with `round (x * 10000)`. -/
def round4 (x : ℚ) : ℤ :=
  (2 * (x.num * 10000) + (x.den : ℤ)) / (2 * (x.den : ℤ))

/-- Embedding of the Python format `f"{x:.4f}"` (weather.py lines
133..134) over exact rationals: scale by 10000, round to the nearest
integer, and render with a sign, the integer digits, a point and exactly
four fractional digits.  (The tie-breaking of the source formatter acts on
a binary double; the claims proved below depend only on the rendered
shape, not on ties.) -/
def fmt4 (x : ℚ) : String :=
  let scaled : ℤ := round4 x
  let sign := if scaled < 0 then "-" else ""
  let m := scaled.natAbs
  let frac := m % 10000
  let fracDigits : List Char :=
    [Nat.digitChar (frac / 1000), Nat.digitChar (frac / 100 % 10),
     Nat.digitChar (frac / 10 % 10), Nat.digitChar (frac % 10)]
  sign ++ natToDecimal (m / 10000) ++ "." ++ ⟨fracDigits⟩

/-- Result of the opening phase of `get_forecast` (weather.py lines
128..137): either the early validation return, issued before any network
request is made, or the points request about to be issued, carrying the
URL and the two formatted coordinates.  The processing of the fetched
points and forecast payloads (lines 139..204) happens strictly after this
phase. -/
inductive ForecastPhase1 where
  | invalid (msg : String)
  | request (points_url lat_str lon_str : String)
deriving DecidableEq, Repr

/-- Shallow embedding of the validation gate and points-URL construction
of the `get_forecast` tool (weather.py lines 121..137), with latitude and
longitude as exact rationals. -/
def get_forecast (latitude longitude : ℚ) : ForecastPhase1 :=
  if ¬(-90 ≤ latitude ∧ latitude ≤ 90 ∧ -180 ≤ longitude ∧ longitude ≤ 180) then
    ForecastPhase1.invalid "Error: Invalid latitude or longitude values provided."
  else
    let lat_str := fmt4 latitude
    let lon_str := fmt4 longitude
    ForecastPhase1.request (NWS_API_BASE ++ "/points/" ++ lat_str ++ "," ++ lon_str)
      lat_str lon_str

/-- A string consisting of an integer part free of decimal points, a
point, and exactly four digits: the shape `%.4f` output always has. -/
def hasFourDecimalPlaces (s : String) : Prop :=
  ∃ intPart fracPart : String,
    s = intPart ++ "." ++ fracPart ∧
    fracPart.length = 4 ∧
    (∀ c ∈ fracPart.data, c.isDigit = true) ∧
    (∀ c ∈ intPart.data, c ≠ '.')

/- Concrete scripted fixtures used by the closed theorems below. -/

/-- Tool endpoint script answering every call with a sunny forecast. -/
def ctSunny : String → String → ToolOutcome :=
  fun _ _ => ToolOutcome.ok "Sunny, 70F"

/-- Tool endpoint script failing every call with a timeout exception. -/
def ctTimeout : String → String → ToolOutcome :=
  fun _ _ => ToolOutcome.exn "timeout"

/-- Printed form of the example arguments of the forecast request. -/
def bostonArgs : String := "latitude 42.36, longitude -71.06"

/-- A completion requesting two tool calls in one turn. -/
def twoToolCompletion : CompletionResult :=
  ⟨[ContentBlock.toolUse "t1" "get_forecast" bostonArgs,
    ContentBlock.toolUse "t2" "get_alerts" "state MA"]⟩

/-- A completion requesting a single forecast tool call. -/
def oneToolCompletion : CompletionResult :=
  ⟨[ContentBlock.toolUse "t1" "get_forecast" bostonArgs]⟩

/-- The closing completion of the example scenario. -/
def bostonFinal : CompletionResult :=
  ⟨[ContentBlock.text "It will be sunny, 70F in Boston."]⟩

/-! Helper lemmas shared by the claim theorems. -/

/-- Scanning a content list free of `tool_use` blocks collects exactly the
text block values and finds no tool use. -/
theorem scanContent_of_noToolUse (bs : List ContentBlock)
    (h : bs.all (fun b => !b.isToolUse) = true) :
    scanContent bs = (textBlocks bs, none) := by
  induction bs with
  | nil => rfl
  | cons b rest ih =>
    rw [List.all_cons, Bool.and_eq_true] at h
    cases b with
    | text s => simp [scanContent, textBlocks, ih h.2]
    | toolUse id name args => simp [ContentBlock.isToolUse] at h
    | toolResult a c e => simp [scanContent, textBlocks, ih h.2]

/-- A path ending in `.js` does not end in `.py`: the two three-character
suffixes of one string would have to be equal. -/
theorem pyEndsWith_disjoint (s : String) (h : pyEndsWith s ".js" = true) :
    pyEndsWith s ".py" = false := by
  unfold pyEndsWith at *
  rw [List.isSuffixOf_iff_suffix] at h
  by_contra hpy
  rw [Bool.not_eq_false, List.isSuffixOf_iff_suffix] at hpy
  obtain ⟨t1, h1⟩ := h
  obtain ⟨t2, h2⟩ := hpy
  rw [← h2] at h1
  have hp := List.append_inj' h1 (by decide)
  exact absurd hp.2 (by decide)

/-- The digit character of a value below ten is a decimal digit and not a
point. -/
theorem digitChar_lt_ten {n : Nat} (h : n < 10) :
    (Nat.digitChar n).isDigit = true ∧ Nat.digitChar n ≠ '.' := by
  interval_cases n <;> exact ⟨rfl, by decide⟩

/-- Every character produced by the decimal digit renderer is a decimal
digit and not a point. -/
theorem natDigitsAux_digits (fuel n : Nat) :
    ∀ c ∈ natDigitsAux fuel n, c.isDigit = true ∧ c ≠ '.' := by
  induction fuel generalizing n with
  | zero => intro c hc; simp [natDigitsAux] at hc
  | succ fuel ih =>
    intro c hc
    by_cases h : n < 10
    · simp [natDigitsAux, h] at hc
      subst hc
      exact digitChar_lt_ten h
    · simp [natDigitsAux, h] at hc
      rcases hc with hc | hc
      · exact ih _ c hc
      · subst hc
        exact digitChar_lt_ten (Nat.mod_lt _ (by norm_num))

/-- The optimized scaled rounding agrees with the mathematical rounding of
`x * 10000` to the nearest integer. -/
theorem round4_eq_round (x : ℚ) : round4 x = round (x * 10000) := by
  have hden : (2 * x.den : ℕ) ≠ 0 := by
    have := x.den_nz
    omega
  have hb : ((2 * x.den : ℕ) : ℚ) ≠ 0 := by
    exact_mod_cast hden
  have key : x * 10000 + 1 / 2 =
      ((2 * (x.num * 10000) + (x.den : ℤ) : ℤ) : ℚ) / ((2 * x.den : ℕ) : ℚ) := by
    rw [eq_div_iff hb]
    push_cast
    nth_rewrite 1 [← Rat.num_div_den x]
    have hd0 : (x.den : ℚ) ≠ 0 := by
      exact_mod_cast x.den_nz
    field_simp
    ring
  rw [round_eq, key, Rat.floor_intCast_div_natCast]
  unfold round4
  push_cast
  rfl

/-- The four-decimal formatter always renders an integer part free of
points, a point, and exactly four digit characters. -/
theorem fmt4_hasFourDecimalPlaces (x : ℚ) : hasFourDecimalPlaces (fmt4 x) := by
  have hlt : (round4 x).natAbs % 10000 < 10000 := Nat.mod_lt _ (by norm_num)
  refine ⟨(if round4 x < 0 then "-" else "") ++ natToDecimal ((round4 x).natAbs / 10000),
          ⟨[Nat.digitChar ((round4 x).natAbs % 10000 / 1000),
            Nat.digitChar ((round4 x).natAbs % 10000 / 100 % 10),
            Nat.digitChar ((round4 x).natAbs % 10000 / 10 % 10),
            Nat.digitChar ((round4 x).natAbs % 10000 % 10)]⟩, rfl, rfl, ?_, ?_⟩
  · intro c hc
    simp only [List.mem_cons, List.not_mem_nil, or_false] at hc
    rcases hc with rfl | rfl | rfl | rfl
    · exact (digitChar_lt_ten (by omega)).1
    · exact (digitChar_lt_ten (by omega)).1
    · exact (digitChar_lt_ten (by omega)).1
    · exact (digitChar_lt_ten (by omega)).1
  · intro c hc
    rw [String.data_append] at hc
    rcases List.mem_append.mp hc with hc | hc
    · by_cases hneg : round4 x < 0
      · rw [if_pos hneg] at hc
        have hcm : c = '-' := by simpa using hc
        subst hcm; decide
      · rw [if_neg hneg] at hc
        simp at hc
    · have hc2 : c ∈ natDigitsAux (((round4 x).natAbs / 10000) + 1)
          ((round4 x).natAbs / 10000) := hc
      exact (natDigitsAux_digits _ _ c hc2).2

/-! Claim theorems. -/

/-- C1: the claim says every `ToolUse` block of an assistant message is
answered by a `callTool` invocation, in order, even when one fails.  The
code does not do this: the `for` loop breaks after the first `tool_use`
block, so on a completion requesting two tools only the first is ever
invoked at the session boundary, and the second is silently dropped.  The
source itself flags this as a latent defect (design note on the
single-tool-per-turn limitation), so the code, not the claim, is wrong. -/
theorem c1_code_behavior :
    (processQuery "q" [twoToolCompletion, ⟨[ContentBlock.text "done"]⟩] ctSunny).map
        RunResult.calls = Except.ok [("get_forecast", bostonArgs)] ∧
    ([("get_forecast", bostonArgs)] : List (String × String)) ≠
      [("get_forecast", bostonArgs), ("get_alerts", "state MA")] :=
  ⟨rfl, by decide⟩

/-- C2: the claim says the set of `tool_result` ids always equals the set
of `tool_use` ids in the conversation.  On a completion with two
`tool_use` blocks the code appends the full assistant content (both ids)
but answers only the first, so the transcript ends with `tool_use` ids
`t1, t2` and `tool_result` ids `t1` only: id `t2` is never answered,
violating the invariant the spec states.  Same root defect the spec flags
as the single-tool-per-turn limitation, so this is a code bug. -/
theorem c2_code_behavior :
    (processQuery "q" [twoToolCompletion, ⟨[ContentBlock.text "done"]⟩] ctSunny).map
        (fun r => (toolUseIds r.messages, toolResultIds r.messages)) =
      Except.ok (["t1", "t2"], ["t1"]) ∧
    (["t1", "t2"] : List String) ≠ ["t1"] :=
  ⟨rfl, by decide⟩

/-- C3 counterexample: on a completion with the two text blocks `a` and
`b` and no tool use, the run returns the newline-joined string, which
differs from the plain concatenation the claim states. -/
theorem c3_counterexample :
    (processQuery "q" [⟨[ContentBlock.text "a", ContentBlock.text "b"]⟩] ctSunny).map
        RunResult.answer = Except.ok "a\nb" ∧ "a\nb" ≠ "a" ++ "b" :=
  ⟨rfl, by decide⟩

/-- C3 (amended): for every completion result containing zero `ToolUse`
blocks, the run terminates after exactly one inference call and returns
the text block values joined with a newline separator (equal to the plain
concatenation only when at most one text block is present). -/
theorem c3_amended_newline_join (q : String) (ct : String → String → ToolOutcome)
    (r0 : CompletionResult) (h : r0.content.all (fun b => !b.isToolUse) = true) :
    processQuery q [r0] ct =
      Except.ok { answer := String.intercalate "\n" (textBlocks r0.content)
                  messages := [⟨"user", MessageContent.str q⟩,
                               ⟨"assistant", MessageContent.str (firstBlockText r0.content)⟩]
                  calls := []
                  inferenceCalls := 1 } := by
  have hs := scanContent_of_noToolUse r0.content h
  simp [processQuery, hs]

/-- C3 witness: the amended theorem applied to a single-text completion. -/
theorem c3_witness :
    processQuery "w" [⟨[ContentBlock.text "hi"]⟩] ctSunny =
      Except.ok { answer := "hi"
                  messages := [⟨"user", MessageContent.str "w"⟩,
                               ⟨"assistant", MessageContent.str "hi"⟩]
                  calls := []
                  inferenceCalls := 1 } :=
  c3_amended_newline_join "w" ctSunny ⟨[ContentBlock.text "hi"]⟩ (by decide)

/-- C4 counterexample: on a failing tool call the code builds the error
content and keeps going as claimed, but the appended `tool_result`
dictionary carries no `isError` key at all (false on the wire), not the
true flag the claim states: no error-flagged result exists anywhere in
the transcript. -/
theorem c4_counterexample :
    (processQuery "q" [oneToolCompletion, bostonFinal] ctTimeout).map
        (fun r => r.messages.map blocksOf) =
      Except.ok [[], [ContentBlock.toolUse "t1" "get_forecast" bostonArgs],
                 [ContentBlock.toolResult "t1" "Error calling tool get_forecast: timeout" false],
                 []] ∧
    (processQuery "q" [oneToolCompletion, bostonFinal] ctTimeout).map
        (fun r => anyErrorFlaggedResult r.messages) = Except.ok false :=
  ⟨rfl, rfl⟩

/-- C4 (amended): for the first tool call of a completion, when the call
raises, the run does not abort: it appends a `tool_result` block whose id
is the failing `tool_use` id and whose content is exactly
`Error calling tool NAME: MSG`, carrying no error flag (false on the
wire, since the source omits the `is_error` key), and then issues the
next inference call. -/
theorem c4_amended_error_result (q id name args m : String)
    (ct : String → String → ToolOutcome) (r0 r1 : CompletionResult)
    (hfu : (scanContent r0.content).2 = some (id, name, args))
    (hct : ct name args = ToolOutcome.exn m) :
    processQuery q [r0, r1] ct =
      Except.ok { answer := String.intercalate "\n" ((scanContent r0.content).1 ++
                    ["[Calling tool " ++ name ++ " with args " ++ args ++ "]",
                     "Error calling tool " ++ name ++ ": " ++ m])
                  messages := [⟨"user", MessageContent.str q⟩,
                               ⟨"assistant", MessageContent.blocks r0.content⟩,
                               ⟨"user", MessageContent.blocks
                                 [ContentBlock.toolResult id
                                   ("Error calling tool " ++ name ++ ": " ++ m) false]⟩,
                               ⟨"assistant", MessageContent.str (firstBlockText r1.content)⟩]
                  calls := [(name, args)]
                  inferenceCalls := 2 } := by
  simp [processQuery, hfu, hct]

/-- C4 witness: the amended theorem applied to the scripted timeout run. -/
theorem c4_witness :
    processQuery "q" [oneToolCompletion, bostonFinal] ctTimeout =
      Except.ok { answer := "[Calling tool get_forecast with args latitude 42.36, longitude -71.06]\nError calling tool get_forecast: timeout"
                  messages := [⟨"user", MessageContent.str "q"⟩,
                               ⟨"assistant", MessageContent.blocks
                                 [ContentBlock.toolUse "t1" "get_forecast" bostonArgs]⟩,
                               ⟨"user", MessageContent.blocks
                                 [ContentBlock.toolResult "t1"
                                   "Error calling tool get_forecast: timeout" false]⟩,
                               ⟨"assistant", MessageContent.str "It will be sunny, 70F in Boston."⟩]
                  calls := [("get_forecast", bostonArgs)]
                  inferenceCalls := 2 } :=
  c4_amended_error_result "q" "t1" "get_forecast" bostonArgs "timeout" ctTimeout
    oneToolCompletion bostonFinal rfl rfl

/-- C5: a completion with no content blocks is handled without aborting.
As the first completion, the loop finds neither text nor tool use, the
closing assistant message degrades to the empty string and the run
returns the empty answer after one inference call; as the completion
following a tool call, the closing assistant message likewise degrades to
the empty string and the run ends normally after the second inference
call. -/
theorem c5_empty_completion (q : String) (ct : String → String → ToolOutcome)
    (r0 r1 : CompletionResult) :
    (r0.content = [] →
      processQuery q [r0] ct =
        Except.ok { answer := ""
                    messages := [⟨"user", MessageContent.str q⟩,
                                 ⟨"assistant", MessageContent.str ""⟩]
                    calls := []
                    inferenceCalls := 1 }) ∧
    (∀ id name args tail, r0.content = ContentBlock.toolUse id name args :: tail →
      r1.content = [] →
      (processQuery q [r0, r1] ct).map
          (fun res => (res.messages.getLast?, res.inferenceCalls)) =
        Except.ok (some ⟨"assistant", MessageContent.str ""⟩, 2)) := by
  constructor
  · intro h
    simp [processQuery, h, scanContent, firstBlockText]
    rfl
  · intro id name args tail h0 h1
    simp only [processQuery, h0, h1, scanContent]
    rfl

/-- C5 witness: the theorem applied to an empty first completion and to an
empty completion following a tool call. -/
theorem c5_witness :
    processQuery "q" [(⟨[]⟩ : CompletionResult)] ctSunny =
      Except.ok { answer := ""
                  messages := [⟨"user", MessageContent.str "q"⟩,
                               ⟨"assistant", MessageContent.str ""⟩]
                  calls := []
                  inferenceCalls := 1 } ∧
    (processQuery "x" [oneToolCompletion, (⟨[]⟩ : CompletionResult)] ctSunny).map
        (fun res => (res.messages.getLast?, res.inferenceCalls)) =
      Except.ok (some ⟨"assistant", MessageContent.str ""⟩, 2) :=
  ⟨(c5_empty_completion "q" ctSunny ⟨[]⟩ ⟨[]⟩).1 rfl,
   (c5_empty_completion "x" ctSunny oneToolCompletion ⟨[]⟩).2
     "t1" "get_forecast" bostonArgs [] rfl rfl⟩

/-- C6: in the single-tool example scenario the conversation does grow by
exactly the four claimed messages, but the run returns the tool-call log
line instead of the final completion text: after a tool call the loop
breaks without ever adding the second completion text to `final_text`
(contradicting the source comment claiming the final response was already
added), so the returned string is not the expected sentence. -/
theorem c6_code_behavior :
    processQuery "forecast for Boston" [oneToolCompletion, bostonFinal] ctSunny =
      Except.ok { answer := "[Calling tool get_forecast with args latitude 42.36, longitude -71.06]"
                  messages := [⟨"user", MessageContent.str "forecast for Boston"⟩,
                               ⟨"assistant", MessageContent.blocks
                                  [ContentBlock.toolUse "t1" "get_forecast" bostonArgs]⟩,
                               ⟨"user", MessageContent.blocks
                                  [ContentBlock.toolResult "t1" "Sunny, 70F" false]⟩,
                               ⟨"assistant", MessageContent.str "It will be sunny, 70F in Boston."⟩]
                  calls := [("get_forecast", bostonArgs)]
                  inferenceCalls := 2 } ∧
    "[Calling tool get_forecast with args latitude 42.36, longitude -71.06]" ≠
      "It will be sunny, 70F in Boston." :=
  ⟨rfl, by decide⟩

/-- C7 counterexample: on a failing tool call the returned answer itself
contains the error message (the code appends it to `final_text`), so the
failure is visible to the end user, contrary to the claim; the error
string occurs inside the returned text. -/
theorem c7_counterexample :
    (processQuery "q" [oneToolCompletion, bostonFinal] ctTimeout).map RunResult.answer =
      Except.ok ("[Calling tool get_forecast with args latitude 42.36, longitude -71.06]\nError calling tool get_forecast: timeout") ∧
    ("Error calling tool get_forecast: timeout".data).isSuffixOf
      ("[Calling tool get_forecast with args latitude 42.36, longitude -71.06]\nError calling tool get_forecast: timeout".data) = true :=
  ⟨rfl, by decide⟩

/-- C7 (amended): when the first tool call of a completion fails, the
error message is recorded in the corresponding `tool_result` block of the
conversation and is also appended verbatim to the text the run returns
(after the tool-call log line), so the failure is visible to the end user
directly, not only through later completions. -/
theorem c7_amended_error_visible (q id name args m : String)
    (ct : String → String → ToolOutcome) (r0 r1 : CompletionResult)
    (hfu : (scanContent r0.content).2 = some (id, name, args))
    (hct : ct name args = ToolOutcome.exn m) :
    (processQuery q [r0, r1] ct).map (fun res => (res.answer, res.messages[2]?)) =
      Except.ok (String.intercalate "\n" ((scanContent r0.content).1 ++
          ["[Calling tool " ++ name ++ " with args " ++ args ++ "]",
           "Error calling tool " ++ name ++ ": " ++ m]),
        some ⟨"user", MessageContent.blocks
          [ContentBlock.toolResult id
            ("Error calling tool " ++ name ++ ": " ++ m) false]⟩) := by
  have hrun : processQuery q [r0, r1] ct =
      Except.ok { answer := String.intercalate "\n" ((scanContent r0.content).1 ++
                    ["[Calling tool " ++ name ++ " with args " ++ args ++ "]",
                     "Error calling tool " ++ name ++ ": " ++ m])
                  messages := [⟨"user", MessageContent.str q⟩,
                               ⟨"assistant", MessageContent.blocks r0.content⟩,
                               ⟨"user", MessageContent.blocks
                                 [ContentBlock.toolResult id
                                   ("Error calling tool " ++ name ++ ": " ++ m) false]⟩,
                               ⟨"assistant", MessageContent.str (firstBlockText r1.content)⟩]
                  calls := [(name, args)]
                  inferenceCalls := 2 } := by
    simp [processQuery, hfu, hct]
  rw [hrun]
  rfl

/-- C7 witness: the amended theorem applied to the scripted timeout run. -/
theorem c7_witness :
    (processQuery "w7" [oneToolCompletion, bostonFinal] ctTimeout).map
        (fun res => (res.answer, res.messages[2]?)) =
      Except.ok ("[Calling tool get_forecast with args latitude 42.36, longitude -71.06]\nError calling tool get_forecast: timeout",
        some ⟨"user", MessageContent.blocks
          [ContentBlock.toolResult "t1"
            "Error calling tool get_forecast: timeout" false]⟩) :=
  c7_amended_error_visible "w7" "t1" "get_forecast" bostonArgs "timeout" ctTimeout
    oneToolCompletion bostonFinal rfl rfl

/-- C8: the run is deterministic: with the collaborators scripted, any two
runs on the same query, completion script and tool script produce the same
result, hence byte-identical answer text and transcript. -/
theorem c8_deterministic_replay (q : String) (cs : List CompletionResult)
    (ct : String → String → ToolOutcome) (r s : Except String RunResult)
    (h1 : processQuery q cs ct = r) (h2 : processQuery q cs ct = s) :
    r = s :=
  h1.symm.trans h2

/-- C8 witness: two scripted replays of the example run agree on the full
result. -/
theorem c8_witness :
    (Except.ok { answer := "It will be sunny, 70F in Boston."
                 messages := [⟨"user", MessageContent.str "hello"⟩,
                              ⟨"assistant", MessageContent.str "It will be sunny, 70F in Boston."⟩]
                 calls := []
                 inferenceCalls := 1 } : Except String RunResult) =
    Except.ok { answer := "It will be sunny, 70F in Boston."
                messages := [⟨"user", MessageContent.str "hello"⟩,
                             ⟨"assistant", MessageContent.str "It will be sunny, 70F in Boston."⟩]
                calls := []
                inferenceCalls := 1 } :=
  c8_deterministic_replay "hello" [bostonFinal] ctSunny _ _ rfl rfl

/-- C9: a server script path ending in neither `.py` nor `.js` makes
`connect_to_server` raise `ValueError` with the exact message before any
subprocess command is selected; a `.py` path selects the command `python`
and a `.js` path the command `node`. -/
theorem c9_connect_dispatch (p : String) :
    (pyEndsWith p ".py" = true → connect_to_server p = Except.ok "python") ∧
    (pyEndsWith p ".js" = true → connect_to_server p = Except.ok "node") ∧
    (pyEndsWith p ".py" = false → pyEndsWith p ".js" = false →
      connect_to_server p = Except.error "Server script must be a .py or .js file") := by
  refine ⟨fun h => ?_, fun h => ?_, fun h1 h2 => ?_⟩
  · simp [connect_to_server, h]
  · have hpy := pyEndsWith_disjoint p h
    simp [connect_to_server, h, hpy]
  · simp [connect_to_server, h1, h2]

/-- C9 witness: the dispatch theorem applied to one path of each kind. -/
theorem c9_witness :
    connect_to_server "weather.py" = Except.ok "python" ∧
    connect_to_server "server.js" = Except.ok "node" ∧
    connect_to_server "tool.txt" = Except.error "Server script must be a .py or .js file" :=
  ⟨(c9_connect_dispatch "weather.py").1 (by decide),
   (c9_connect_dispatch "server.js").2.1 (by decide),
   (c9_connect_dispatch "tool.txt").2.2 (by decide) (by decide)⟩

/-- C10: a latitude outside `[-90, 90]` or longitude outside `[-180, 180]`
makes `get_forecast` return exactly the invalid-input error string, before
any network request; for in-range inputs the points request URL carries
the two coordinates formatted with exactly four decimal places. -/
theorem c10_forecast_gate (lat lon : ℚ) :
    (¬(-90 ≤ lat ∧ lat ≤ 90 ∧ -180 ≤ lon ∧ lon ≤ 180) →
      get_forecast lat lon =
        ForecastPhase1.invalid "Error: Invalid latitude or longitude values provided.") ∧
    ((-90 ≤ lat ∧ lat ≤ 90 ∧ -180 ≤ lon ∧ lon ≤ 180) →
      get_forecast lat lon =
        ForecastPhase1.request (NWS_API_BASE ++ "/points/" ++ fmt4 lat ++ "," ++ fmt4 lon)
          (fmt4 lat) (fmt4 lon) ∧
      hasFourDecimalPlaces (fmt4 lat) ∧ hasFourDecimalPlaces (fmt4 lon)) := by
  constructor
  · intro h
    unfold get_forecast
    rw [if_pos h]
  · intro h
    refine ⟨?_, fmt4_hasFourDecimalPlaces lat, fmt4_hasFourDecimalPlaces lon⟩
    unfold get_forecast
    rw [if_neg (not_not_intro h)]

/-- C10 witness: the gate theorem applied to an out-of-range latitude and
to an in-range coordinate pair, with the formatter evaluated. -/
theorem c10_witness :
    get_forecast 100 0 =
      ForecastPhase1.invalid "Error: Invalid latitude or longitude values provided." ∧
    get_forecast 42 (-71) =
      ForecastPhase1.request "https://api.weather.gov/points/42.0000,-71.0000"
        "42.0000" "-71.0000" := by
  constructor
  · exact (c10_forecast_gate 100 0).1 (by decide)
  · have h := ((c10_forecast_gate 42 (-71)).2 (by decide)).1
    rw [h]
    rfl

end MCP
